import Mathlib

/-!
# Verification of `slide3_data_overview.py`

A shallow embedding of the report-generator script for the Avalon nuclear
safety dataset.  The script loads a CSV table, derives a boolean `panic_mode`
column, renders an eight-panel figure, and prints summary statistics.

The table is modelled as a `List Row`; pandas column operations become `List`
operations on the projected fields.  `Series.value_counts()` is modelled as
the list of (value, count) pairs over the deduplicated values, sorted by
count descending (pandas sorts descending by count, tie order arbitrary but
stable).  String formatting of the f-strings is modelled character-faithfully
with explicit concatenation, including the thousands separator (`:,`) and the
fixed-precision float formats (`:.1f`, `:.2f`) as round-half-even on exact
rationals.
-/

namespace SlideThree

/-- One row of `avalon_nuclear.csv`, with the columns the script reads. -/
structure Row where
  country : String
  year : Int
  true_risk_level : Int
  avalon_evac : Int
  avalon_shutdown : Int
  incident_occurred : Int
  public_anxiety_index : ℚ
  social_media_rumour_index : ℚ
  regulator_scrutiny_score : ℚ
  reactor_type_code : String
  deriving DecidableEq, Repr

instance : Inhabited Row :=
  ⟨⟨"", 0, 0, 0, 0, 0, 0, 0, 0, ""⟩⟩

/-- Lines 14-17 of the script, per row:
`((df['avalon_evac_recommendation'] == 1) | (df['avalon_shutdown_recommendation'] == 1)) & (df['true_risk_level'] <= 2)`,
then `.astype(int)`. -/
def panicMode (r : Row) : Nat :=
  if (r.avalon_evac = 1 ∨ r.avalon_shutdown = 1) ∧ r.true_risk_level ≤ 2 then 1
  else 0

/-- The table after line 17: the original rows plus the derived
`panic_mode` column. -/
structure DerivedTable where
  rows : List Row
  panic_mode : List Nat
  deriving Repr

/-- Lines 14-17 as a whole-table operation: compute the `panic_mode`
column from the existing columns and attach it; no other column changes. -/
def addPanicMode (t : List Row) : DerivedTable :=
  ⟨t, t.map panicMode⟩

/-- Sort key of `Series.value_counts()`: count descending. -/
def countGE {α : Type} (a b : α × Nat) : Prop := b.2 ≤ a.2

instance {α : Type} : DecidableRel (countGE (α := α)) := fun a b => Nat.decLe b.2 a.2

instance {α : Type} : IsTotal (α × Nat) countGE :=
  ⟨fun a b => (Nat.le_total b.2 a.2).imp id id⟩

instance {α : Type} : IsTrans (α × Nat) countGE :=
  ⟨fun _ _ _ h1 h2 => Nat.le_trans h2 h1⟩

/-- Model of `Series.value_counts()`: one (value, count) pair per distinct value,
sorted by count descending; values with zero occurrences do not appear. -/
def value_counts {α : Type} [DecidableEq α] (xs : List α) : List (α × Nat) :=
  ((xs.dedup).map (fun v => (v, xs.count v))).insertionSort countGE

/-- The counts column of `value_counts`. -/
def countsOf {α : Type} [DecidableEq α] (xs : List α) : List Nat :=
  (value_counts xs).map Prod.snd

/-!
## String formatting

The script's f-strings use `:,` (thousands separators), `:.1f` and `:.2f`
(fixed precision, round-half-even as in IEEE formatting).  All values
formatted by the script are exact small decimals, so modelling the float
rounding as round-half-even on exact rationals is faithful.
-/

/-- Insert a `,` after every group of three digits of a reversed digit
string (the `:,` format specifier). -/
def commaRev : List Char → List Char
  | a :: b :: c :: d :: rest => a :: b :: c :: ',' :: commaRev (d :: rest)
  | l => l

/-- Python `f"{n:,}"` for a natural number. -/
def addCommas (n : Nat) : String :=
  ⟨(commaRev (toString n).data.reverse).reverse⟩

/-- Round to the nearest integer, ties to even. -/
def roundHalfEven (q : ℚ) : ℤ :=
  if q - ⌊q⌋ < 1/2 then ⌊q⌋
  else if (1 : ℚ)/2 < q - ⌊q⌋ then ⌊q⌋ + 1
  else if ⌊q⌋ % 2 = 0 then ⌊q⌋ else ⌊q⌋ + 1

/-- Zero-pad a two-digit fractional part. -/
def twoDigitPad (k : Nat) : String :=
  if k < 10 then "0" ++ toString k else toString k

/-- Python `f"{q:.2f}"` for a nonnegative value. -/
def format2f (q : ℚ) : String :=
  toString ((roundHalfEven (q * 100)).toNat / 100) ++ "." ++
    twoDigitPad ((roundHalfEven (q * 100)).toNat % 100)

/-- Python `f"{q:.1f}"` for a nonnegative value. -/
def format1f (q : ℚ) : String :=
  toString ((roundHalfEven (q * 10)).toNat / 10) ++ "." ++
    toString ((roundHalfEven (q * 10)).toNat % 10)

/-!
## Summary box and printed statistics
-/

/-- Feature count `len(df.columns)` after line 17: the 10 CSV columns plus `panic_mode`. -/
def columnCount : Nat := 11

/-- Column minimum `df['year'].min()` (0 on the empty table, where pandas would give NaN;
no claim concerns the empty-table year field). -/
def yearMin (t : List Row) : Int := ((t.map Row.year).min?).getD 0

/-- Column maximum `df['year'].max()` (0 on the empty table, as for `yearMin`). -/
def yearMax (t : List Row) : Int := ((t.map Row.year).max?).getD 0

/-- Distinct-country count `df['country'].nunique()`. -/
def nuniqueCountries (t : List Row) : Nat := (t.map Row.country).dedup.length

/-- Distinct-reactor-type count `df['reactor_type_code'].nunique()`. -/
def nuniqueReactorTypes (t : List Row) : Nat :=
  (t.map Row.reactor_type_code).dedup.length

/-- Lines 30-38: the `info_text` f-string of the summary box. -/
def infoText (t : DerivedTable) : String :=
  "\nDATASET SUMMARY\n" ++
  "━━━━━━━━━━━━━━━━━\n" ++
  "Records: " ++ addCommas t.rows.length ++ "\n" ++
  "Features: " ++ toString columnCount ++ "\n" ++
  "Countries: " ++ toString (nuniqueCountries t.rows) ++ "\n" ++
  "Time Span: " ++ toString (yearMin t.rows) ++ "–" ++ toString (yearMax t.rows) ++ "\n" ++
  ("Missing Values: 0" ++ "\n")

/-- Column sum `df['panic_mode'].sum()`. -/
def panicSum (t : DerivedTable) : Nat := t.panic_mode.sum

/-- Line 117: `f"  Panic mode cases: {sum} ({sum/len*100:.2f}%)"`. -/
def panicCasesLine (t : DerivedTable) : String :=
  "  Panic mode cases: " ++ toString (panicSum t) ++ " (" ++
    format2f ((panicSum t : ℚ) / (t.rows.length : ℚ) * 100) ++ "%)"

/-- Line 118: `f"  Normal cases: {len-sum} ({(len-sum)/len*100:.2f}%)"`.
(`panicSum ≤ length` always holds for tables built by `addPanicMode`, so
the natural subtraction agrees with Python's integer subtraction.) -/
def normalCasesLine (t : DerivedTable) : String :=
  "  Normal cases: " ++ toString (t.rows.length - panicSum t) ++ " (" ++
    format2f (((t.rows.length : ℚ) - (panicSum t : ℚ)) / (t.rows.length : ℚ) * 100) ++ "%)"

/-- Lines 114-120: everything the script prints to standard output. -/
def printedLines (t : DerivedTable) : List String :=
  [ "✓ Visualization saved as 'slide3_data_overview.png'",
    "\nDataset Statistics:",
    "  Total records: " ++ addCommas t.rows.length,
    panicCasesLine t,
    normalCasesLine t,
    "  Unique countries: " ++ toString (nuniqueCountries t.rows),
    "  Reactor types: " ++ toString (nuniqueReactorTypes t.rows) ]

/-!
## The pie, incident and top-countries panels
-/

/-- One wedge of `Axes.pie`: matplotlib assigns the i-th label and the
i-th color to the i-th value. -/
structure Wedge where
  value : Nat
  label : String
  color : String
  deriving DecidableEq, Repr

instance : Inhabited Wedge := ⟨⟨0, "", ""⟩⟩

/-- Positional assignment of labels and colors to values, as
`Axes.pie(x, labels=..., colors=...)` does. -/
def mkWedges (values : List Nat) (labels colors : List String) : List Wedge :=
  (values.zip (labels.zip colors)).map (fun p => ⟨p.1, p.2.1, p.2.2⟩)

/-- Line 44: `panic_counts = df['panic_mode'].value_counts()`. -/
def panic_counts (t : DerivedTable) : List (Nat × Nat) :=
  value_counts t.panic_mode

/-- Lines 45-48: the pie call `ax2.pie(panic_counts, labels=['Normal',
'Panic Mode'], colors=['#2ecc71', '#e74c3c'], ...)` — the wedges it
would draw. -/
def panicPieWedges (t : DerivedTable) : List Wedge :=
  mkWedges ((panic_counts t).map Prod.snd) ["Normal", "Panic Mode"]
    ["#2ecc71", "#e74c3c"]

/-- Models the argument check of `Axes.pie`: matplotlib raises
`ValueError("'label' must be of length 'x'")` when the label list length
differs from the value list length, aborting the render. -/
def pieCall (values : List Nat) (labels : List String) : Except String (List Nat) :=
  if values.length = labels.length then Except.ok values
  else Except.error "ValueError: labels must be of length x"

/-- Lines 44-48 as a fallible call: the pie panel either renders the
count sequence or raises. -/
def panicPiePanel (t : DerivedTable) : Except String (List Nat) :=
  pieCall ((panic_counts t).map Prod.snd) ["Normal", "Panic Mode"]

/-- The wedge fractions of the pie: matplotlib normalizes each value by
the total `sum(x)` (shown as percentages by `autopct`). -/
def panicPieFractions (t : DerivedTable) : List ℚ :=
  ((panic_counts t).map Prod.snd).map
    (fun (c : Nat) => (c : ℚ) / ((((panic_counts t).map Prod.snd).sum : ℕ) : ℚ))

/-- Line 98: `top_countries = df['country'].value_counts().head(10)`. -/
def top_countries (t : List Row) : List (String × Nat) :=
  (value_counts (t.map Row.country)).take 10

/-- Lines 99-104: `barh` draws entry i at y = i and `invert_yaxis` puts
y = 0 at the top, so the top-to-bottom display order is list order. -/
def topCountriesTopToBottom (t : List Row) : List (String × Nat) :=
  top_countries t

/-- Line 64: `incident_counts = df['incident_occurred'].value_counts()`. -/
def incident_counts (t : List Row) : List (Int × Nat) :=
  value_counts (t.map Row.incident_occurred)

/-- Line 70: the text drawn over bar (i, v):
`f'{v}\n({v/len(df)*100:.1f}%)'`. -/
def incidentBarNotes (t : List Row) : List String :=
  (incident_counts t).map (fun (p : Int × Nat) =>
    toString p.2 ++ "\n(" ++ format1f ((p.2 : ℚ) / (t.length : ℚ) * 100) ++ "%)")

/-!
## Concrete rows and a run model
-/

/-- A row satisfying the panic rule, used to build concrete tables. -/
def panicRowW : Row := ⟨"FR", 2011, 1, 1, 1, 0, 0, 0, 0, "PWR"⟩

/-- A non-panic row used to build concrete tables. -/
def normalRowW : Row := ⟨"DE", 2012, 3, 0, 0, 0, 0, 0, 0, "BWR"⟩

/-- A row whose `incident_occurred` flag is 1, used to build concrete
tables. -/
def incidentRowW : Row := ⟨"JP", 2013, 3, 0, 0, 1, 0, 0, 0, "PHWR"⟩

/-- A 1,000-row table with exactly 180 panic-rule rows. -/
def tableW : List Row := List.replicate 180 panicRowW ++ List.replicate 820 normalRowW

/-- Modelled from the spec: the rendered PNG "may embed timestamps/fonts
non-deterministically", so the image is a function of an ambient render
environment as well as the table. -/
structure RenderEnv where
  seed : Nat

/-- The observable output of one run: the saved image (which may depend on
the render environment) and the lines printed to standard output. -/
structure ProgramOutput where
  image : RenderEnv × DerivedTable
  printed : List String

/-- One run of the script on a loaded table under a render environment. -/
def runReport (env : RenderEnv) (t : List Row) : ProgramOutput :=
  ⟨(env, addPanicMode t), printedLines (addPanicMode t)⟩

/-!
## Properties of `value_counts`
-/

theorem value_counts_perm {α : Type} [DecidableEq α] (xs : List α) :
    (value_counts xs).Perm ((xs.dedup).map (fun v => (v, xs.count v))) :=
  List.perm_insertionSort _ _

theorem value_counts_sorted {α : Type} [DecidableEq α] (xs : List α) :
    (value_counts xs).Sorted countGE :=
  List.sorted_insertionSort _ _

/-- The counts reported by `value_counts` sum to the number of rows. -/
theorem sum_countsOf {α : Type} [DecidableEq α] (xs : List α) :
    (countsOf xs).sum = xs.length := by
  have hperm : (countsOf xs).Perm ((xs.dedup).map (fun v => xs.count v)) := by
    have := (value_counts_perm xs).map Prod.snd
    simpa [countsOf, Function.comp] using this
  rw [hperm.sum_eq]
  exact List.sum_map_count_dedup_eq_length xs

theorem length_value_counts {α : Type} [DecidableEq α] (xs : List α) :
    (value_counts xs).length = xs.dedup.length := by
  rw [(value_counts_perm xs).length_eq, List.length_map]

theorem mem_value_counts {α : Type} [DecidableEq α] {xs : List α} {p : α × Nat} :
    p ∈ value_counts xs ↔ p.1 ∈ xs ∧ p.2 = xs.count p.1 := by
  rw [(value_counts_perm xs).mem_iff]
  constructor
  · intro h
    rcases List.mem_map.1 h with ⟨v, hv, hp⟩
    cases hp
    exact ⟨List.mem_dedup.1 hv, rfl⟩
  · rintro ⟨h1, h2⟩
    refine List.mem_map.2 ⟨p.1, List.mem_dedup.2 h1, ?_⟩
    cases p
    simp_all

/-- A nonempty list all of whose elements equal `v` dedups to `[v]`. -/
theorem dedup_eq_singleton {α : Type} [DecidableEq α] {xs : List α} {v : α}
    (hne : xs ≠ []) (hall : ∀ x ∈ xs, x = v) : xs.dedup = [v] := by
  induction xs with
  | nil => exact absurd rfl hne
  | cons a l ih =>
    have ha : a = v := hall a (List.mem_cons_self a l)
    subst ha
    rcases List.eq_nil_or_concat l with h | _
    · subst h
      simp
    · by_cases hm : a ∈ l
      · rw [List.dedup_cons_of_mem hm]
        exact ih (List.ne_nil_of_mem hm) (fun x hx => hall x (List.mem_cons_of_mem a hx))
      · have hl : l = [] := by
          by_contra hlne
          rcases List.exists_mem_of_ne_nil l hlne with ⟨x, hx⟩
          exact hm ((hall x (List.mem_cons_of_mem a hx)) ▸ hx)
        subst hl
        simp

/-- A duplicate-free list whose members are exactly two given distinct
values is one of the two orderings of those values. -/
theorem nodup_two_values {α : Type} [DecidableEq α] {l : List α} {x y : α}
    (hxy : x ≠ y) (hnd : l.Nodup) (hsub : ∀ v ∈ l, v = x ∨ v = y)
    (hx : x ∈ l) (hy : y ∈ l) : l = [x, y] ∨ l = [y, x] := by
  match l with
  | [] => cases hx
  | [a] =>
    have h1 : x = a := List.mem_singleton.1 hx
    have h2 : y = a := List.mem_singleton.1 hy
    exact absurd (h1.trans h2.symm) hxy
  | a :: b :: rest =>
    have hab : a ≠ b := by
      have := List.nodup_cons.1 hnd
      exact fun h => this.1 (h ▸ List.mem_cons_self b rest)
    have ha := hsub a (List.mem_cons_self _ _)
    have hb := hsub b (List.mem_cons_of_mem a (List.mem_cons_self _ _))
    have hrest : rest = [] := by
      by_contra hne
      rcases List.exists_mem_of_ne_nil rest hne with ⟨c, hc⟩
      have hcv := hsub c (List.mem_cons_of_mem a (List.mem_cons_of_mem b hc))
      have hnd2 := hnd
      rw [List.nodup_cons, List.nodup_cons] at hnd2
      have hca : c ≠ a := fun h =>
        hnd2.1 (h ▸ List.mem_cons_of_mem b hc)
      have hcb : c ≠ b := fun h => hnd2.2.1 (h ▸ hc)
      rcases ha with ha | ha <;> rcases hb with hb | hb <;> rcases hcv with hcv | hcv <;>
        subst_vars <;> simp_all
    subst hrest
    rcases ha with ha | ha <;> rcases hb with hb | hb <;> subst_vars <;> simp_all

/-!
## Claim C1: the panic mode rule
-/

/-- The derived column at row `i` is `panicMode` of row `i`. -/
theorem panic_mode_getD (t : List Row) (i : Nat) (h : i < t.length) :
    (addPanicMode t).panic_mode.getD i 0 = panicMode (t.getD i default) := by
  have h2 : i < (t.map panicMode).length := by simpa using h
  simp only [addPanicMode]
  rw [List.getD_eq_getElem _ _ h2, List.getElem_map, List.getD_eq_getElem _ _ h]

/-- C1: For every row of the loaded table, the derived `panic_mode`
column equals 1 iff `(avalon_evac_recommendation = 1` or
`avalon_shutdown_recommendation = 1)` and `true_risk_level ≤ 2`, and
equals 0 otherwise. -/
theorem panic_mode_rule (t : List Row) (i : Nat) (h : i < t.length) :
    ((addPanicMode t).panic_mode.getD i 0 = 1 ↔
      ((t.getD i default).avalon_evac = 1 ∨
        (t.getD i default).avalon_shutdown = 1) ∧
        (t.getD i default).true_risk_level ≤ 2) ∧
    (¬ (((t.getD i default).avalon_evac = 1 ∨
          (t.getD i default).avalon_shutdown = 1) ∧
          (t.getD i default).true_risk_level ≤ 2) →
      (addPanicMode t).panic_mode.getD i 0 = 0) := by
  rw [panic_mode_getD t i h]
  by_cases hc : ((t.getD i default).avalon_evac = 1 ∨
      (t.getD i default).avalon_shutdown = 1) ∧
      (t.getD i default).true_risk_level ≤ 2
  · unfold panicMode
    rw [if_pos hc]
    exact ⟨⟨fun _ => hc, fun _ => rfl⟩, fun hy => absurd hc hy⟩
  · unfold panicMode
    rw [if_neg hc]
    exact ⟨⟨fun hx => absurd hx (by decide), fun hx => absurd hx hc⟩, fun _ => rfl⟩

/-- Witness for C1 at a concrete one-row table satisfying the panic rule. -/
theorem panic_mode_rule_witness :
    ((addPanicMode [⟨"FR", 2010, 1, 1, 0, 0, 0, 0, 0, "PWR"⟩]).panic_mode.getD 0 0 = 1 ↔
      ((([⟨"FR", 2010, 1, 1, 0, 0, 0, 0, 0, "PWR"⟩] : List Row).getD 0 default).avalon_evac = 1 ∨
        (([⟨"FR", 2010, 1, 1, 0, 0, 0, 0, 0, "PWR"⟩] : List Row).getD 0 default).avalon_shutdown = 1) ∧
        (([⟨"FR", 2010, 1, 1, 0, 0, 0, 0, 0, "PWR"⟩] : List Row).getD 0 default).true_risk_level ≤ 2) ∧
    (¬ ((((([⟨"FR", 2010, 1, 1, 0, 0, 0, 0, 0, "PWR"⟩] : List Row)).getD 0 default).avalon_evac = 1 ∨
          ((([⟨"FR", 2010, 1, 1, 0, 0, 0, 0, 0, "PWR"⟩] : List Row)).getD 0 default).avalon_shutdown = 1) ∧
          ((([⟨"FR", 2010, 1, 1, 0, 0, 0, 0, 0, "PWR"⟩] : List Row)).getD 0 default).true_risk_level ≤ 2) →
      (addPanicMode [⟨"FR", 2010, 1, 1, 0, 0, 0, 0, 0, "PWR"⟩]).panic_mode.getD 0 0 = 0) :=
  panic_mode_rule [⟨"FR", 2010, 1, 1, 0, 0, 0, 0, 0, "PWR"⟩] 0 (by decide)

/-!
## Claim C3: the hardcoded "Missing Values: 0" line
-/

/-- C3: For every input table, the summary box text contains the line
`Missing Values: 0` as a literal constant: it is a fixed segment of the
f-string, not computed from the data, so it appears for every table. -/
theorem info_text_missing_values (t : DerivedTable) :
    ∃ a b : String, infoText t = a ++ ("Missing Values: 0" ++ b) :=
  ⟨_, "\n", rfl⟩

/-!
## Claim C4: the printed statistics at 1,000 rows / 180 panic cases
-/

/-- The `panic_mode` flag is always 0 or 1. -/
theorem panicMode_zero_or_one (r : Row) : panicMode r = 0 ∨ panicMode r = 1 := by
  unfold panicMode
  split <;> simp

/-- The sum `df['panic_mode'].sum()` counts the rows satisfying the panic rule. -/
theorem panicSum_eq_countP (t : List Row) :
    panicSum (addPanicMode t) = t.countP (fun r => panicMode r == 1) := by
  induction t with
  | nil => rfl
  | cons a l ih =>
    simp only [panicSum, addPanicMode, List.map_cons, List.sum_cons, List.countP_cons]
    simp only [panicSum, addPanicMode] at ih
    rw [ih]
    rcases panicMode_zero_or_one a with h | h <;> rw [h] <;> simp [Nat.add_comm]

theorem countP_replicate {α : Type} (p : α → Bool) (n : Nat) (a : α) :
    (List.replicate n a).countP p = if p a then n else 0 := by
  induction n with
  | zero => simp
  | succ n ih =>
    rw [List.replicate_succ, List.countP_cons, ih]
    split <;> omega

/-- Rounding with `roundHalfEven` is the identity on integers. -/
theorem roundHalfEven_natCast (n : ℕ) : roundHalfEven ((n : ℕ) : ℚ) = (n : ℤ) := by
  unfold roundHalfEven
  rw [Int.floor_natCast]
  norm_num

/-- C4: For every table of 1,000 rows of which exactly 180 satisfy the
panic rule, the printed statistics lines read
`  Panic mode cases: 180 (18.00%)` and `  Normal cases: 820 (82.00%)`. -/
theorem stats_lines_at_1000_180 (t : List Row)
    (hlen : t.length = 1000)
    (hcount : t.countP (fun r => panicMode r == 1) = 180) :
    panicCasesLine (addPanicMode t) = "  Panic mode cases: 180 (18.00%)" ∧
    normalCasesLine (addPanicMode t) = "  Normal cases: 820 (82.00%)" := by
  have hsum : panicSum (addPanicMode t) = 180 := by
    rw [panicSum_eq_countP, hcount]
  have hrows : (addPanicMode t).rows.length = 1000 := hlen
  have h18 : ((180 : ℕ) : ℚ) / ((1000 : ℕ) : ℚ) * 100 = 18 := by norm_num
  have h82 : (((1000 : ℕ) : ℚ) - ((180 : ℕ) : ℚ)) / ((1000 : ℕ) : ℚ) * 100 = 82 := by
    norm_num
  have f18 : format2f 18 = "18.00" := by
    unfold format2f
    have e : (18 : ℚ) * 100 = ((1800 : ℕ) : ℚ) := by norm_num
    rw [e, roundHalfEven_natCast]
    rfl
  have f82 : format2f 82 = "82.00" := by
    unfold format2f
    have e : (82 : ℚ) * 100 = ((8200 : ℕ) : ℚ) := by norm_num
    rw [e, roundHalfEven_natCast]
    rfl
  rw [panicCasesLine, normalCasesLine, hsum, hrows, h18, h82, f18, f82]
  exact ⟨rfl, rfl⟩

/-- Witness for C4 on a concrete 1,000-row table with 180 panic cases. -/
theorem stats_lines_at_1000_180_witness :
    panicCasesLine (addPanicMode tableW) = "  Panic mode cases: 180 (18.00%)" ∧
    normalCasesLine (addPanicMode tableW) = "  Normal cases: 820 (82.00%)" :=
  stats_lines_at_1000_180 tableW
    (by rw [tableW, List.length_append, List.length_replicate, List.length_replicate])
    (by rw [tableW, List.countP_append, countP_replicate, countP_replicate]
        norm_num [panicRowW, normalRowW, panicMode])

/-!
## Claim C8: the deriver's frame
-/

/-- C8: the deriver `addPanicMode` adds exactly the `panic_mode` column, one entry
per row with every value 0 or 1, and leaves all original columns (the
`rows` field) unchanged; being a pure function, the column is computed once
and never mutated afterwards. -/
theorem addPanicMode_frame (t : List Row) (i : Nat) (h : i < t.length) :
    (addPanicMode t).rows = t ∧
    (addPanicMode t).panic_mode.length = t.length ∧
    ((addPanicMode t).panic_mode.getD i 0 = 0 ∨
      (addPanicMode t).panic_mode.getD i 0 = 1) := by
  refine ⟨rfl, by simp [addPanicMode], ?_⟩
  rw [panic_mode_getD t i h]
  exact panicMode_zero_or_one _

/-- Witness for C8 at a concrete one-row table. -/
theorem addPanicMode_frame_witness :
    (addPanicMode [panicRowW]).rows = [panicRowW] ∧
    (addPanicMode [panicRowW]).panic_mode.length = [panicRowW].length ∧
    ((addPanicMode [panicRowW]).panic_mode.getD 0 0 = 0 ∨
      (addPanicMode [panicRowW]).panic_mode.getD 0 0 = 1) :=
  addPanicMode_frame [panicRowW] 0 (by decide)

/-!
## Claim C9: printed statistics are deterministic across runs
-/

/-- C9: Two runs on the same unchanged input table print identical
statistics lines (total records, panic count and percentage, normal count
and percentage, distinct countries, distinct reactor types), whatever the
render environments: the printed lines are a function of the table alone. -/
theorem printed_deterministic (env1 env2 : RenderEnv) (t : List Row) :
    (runReport env1 t).printed = (runReport env2 t).printed := rfl

/-!
## Claim C10: the pie fails when only one panic category occurs
-/

/-- C10: For every nonempty table whose derived `panic_mode` column
takes a single distinct value, `value_counts` has one entry while the label
list has two, so the pie call raises and the run aborts instead of
producing the figure. -/
theorem pie_single_category_fails (t : List Row) (v : Nat) (hne : t ≠ [])
    (hall : ∀ x ∈ (addPanicMode t).panic_mode, x = v) :
    panicPiePanel (addPanicMode t) =
      Except.error "ValueError: labels must be of length x" := by
  have hpm : (addPanicMode t).panic_mode ≠ [] := by
    simpa [addPanicMode] using hne
  have hd : (addPanicMode t).panic_mode.dedup = [v] :=
    dedup_eq_singleton hpm hall
  have hlen : ((value_counts (addPanicMode t).panic_mode).map Prod.snd).length = 1 := by
    rw [List.length_map, length_value_counts, hd]
    rfl
  have hcond : ¬ (((value_counts (addPanicMode t).panic_mode).map Prod.snd).length =
      (["Normal", "Panic Mode"] : List String).length) := by
    rw [hlen]
    decide
  unfold panicPiePanel panic_counts pieCall
  rw [if_neg hcond]

/-- Witness for C10: a one-row table, every `panic_mode` entry is 0. -/
theorem pie_single_category_fails_witness :
    panicPiePanel (addPanicMode [normalRowW]) =
      Except.error "ValueError: labels must be of length x" :=
  pie_single_category_fails [normalRowW] 0 (List.cons_ne_nil _ _)
    (by intro x hx; simpa [addPanicMode, normalRowW, panicMode] using hx)

/-!
## Claim C7: the pie proportions sum to 100%
-/

/-- Summing count-over-total fractions gives total-of-counts over total. -/
theorem sum_map_div_cast (l : List Nat) (n : Nat) :
    (l.map (fun c : Nat => (c : ℚ) / ((n : ℕ) : ℚ))).sum = ((l.sum : ℕ) : ℚ) / ((n : ℕ) : ℚ) := by
  induction l with
  | nil => simp
  | cons a tl ih =>
    simp only [List.map_cons, List.sum_cons, ih]
    push_cast
    ring

/-- The counts of the panic pie sum to the number of rows. -/
theorem panic_counts_sum (t : List Row) :
    ((panic_counts (addPanicMode t)).map Prod.snd).sum = t.length := by
  have h := sum_countsOf ((addPanicMode t).panic_mode)
  simpa [panic_counts, countsOf, addPanicMode] using h

/-- C7: For every nonempty input table, the panic-pie wedge fractions
(each category's count over the total row count) sum to exactly 1, i.e.
the displayed percentages sum to 100%. -/
theorem pie_fractions_sum_one (t : List Row) (hne : t ≠ []) :
    (panicPieFractions (addPanicMode t)).sum * 100 = 100 ∧
    panicPieFractions (addPanicMode t) =
      ((panic_counts (addPanicMode t)).map Prod.snd).map
        (fun (c : Nat) => (c : ℚ) / (((addPanicMode t).rows.length : ℕ) : ℚ)) := by
  have hlen0 : (t.length : ℚ) ≠ 0 :=
    Nat.cast_ne_zero.2 (fun h => hne (List.length_eq_zero.1 h))
  constructor
  · unfold panicPieFractions
    rw [panic_counts_sum, sum_map_div_cast, panic_counts_sum, div_self hlen0, one_mul]
  · unfold panicPieFractions
    rw [panic_counts_sum]
    rfl

/-- Witness for C7 at a concrete two-row table. -/
theorem pie_fractions_sum_one_witness :
    (panicPieFractions (addPanicMode [panicRowW, normalRowW])).sum * 100 = 100 ∧
    panicPieFractions (addPanicMode [panicRowW, normalRowW]) =
      ((panic_counts (addPanicMode [panicRowW, normalRowW])).map Prod.snd).map
        (fun (c : Nat) => (c : ℚ) /
          (((addPanicMode [panicRowW, normalRowW]).rows.length : ℕ) : ℚ)) :=
  pie_fractions_sum_one [panicRowW, normalRowW] (List.cons_ne_nil _ _)

/-!
## Claim C5: the top-countries panel
-/

/-- C5: For every input table, the top-countries panel lists at most
10 entries, its counts are sorted descending (ties in the arbitrary but
stable `value_counts` order), and the entry displayed at the top (index 0
after `invert_yaxis`) has the highest count of any country. -/
theorem top_countries_spec (t : List Row) :
    (top_countries t).length ≤ 10 ∧
    (top_countries t).Sorted countGE ∧
    (∀ p ∈ value_counts (t.map Row.country),
      p.2 ≤ ((topCountriesTopToBottom t).getD 0 ("", 0)).2) := by
  refine ⟨?_, ?_, ?_⟩
  · exact List.length_take_le 10 _
  · exact (value_counts_sorted (t.map Row.country)).sublist (List.take_sublist 10 _)
  · cases hvc : value_counts (t.map Row.country) with
    | nil =>
      intro p hp
      cases hp
    | cons c rest =>
      intro p hp
      have hhead : (topCountriesTopToBottom t).getD 0 ("", 0) = c := by
        simp [topCountriesTopToBottom, top_countries, hvc]
      rw [hhead]
      have hsorted := value_counts_sorted (t.map Row.country)
      rw [hvc] at hsorted
      rcases List.mem_cons.1 hp with h | h
      · rw [h]
      · exact List.rel_of_sorted_cons hsorted p h

/-!
## Claim C6: the incident bar chart
-/

/-- C6: For every table whose `incident_occurred` column takes values
in {0, 1} with both values present, the incident panel draws exactly two
bars, the two bar values sum to the total row count, and each bar's text
shows the bar's value over the total as a percentage rounded to one
decimal place. -/
theorem incident_bars_spec (t : List Row)
    (hsub : ∀ r ∈ t, r.incident_occurred = 0 ∨ r.incident_occurred = 1)
    (h0 : (0 : Int) ∈ t.map Row.incident_occurred)
    (h1 : (1 : Int) ∈ t.map Row.incident_occurred) :
    (incident_counts t).length = 2 ∧
    ((incident_counts t).map Prod.snd).sum = t.length ∧
    incidentBarNotes t = (incident_counts t).map (fun (p : Int × Nat) =>
      toString p.2 ++ "\n(" ++ format1f ((p.2 : ℚ) * 100 / (t.length : ℚ)) ++ "%)") := by
  have hsubm : ∀ v ∈ t.map Row.incident_occurred, v = 0 ∨ v = 1 := by
    intro v hv
    obtain ⟨r, hr, hrv⟩ := List.mem_map.1 hv
    rw [← hrv]
    exact hsub r hr
  have hdd := nodup_two_values (x := (0 : Int)) (y := 1) (by decide)
    (t.map Row.incident_occurred).nodup_dedup
    (fun v hv => hsubm v (List.mem_dedup.1 hv))
    (List.mem_dedup.2 h0) (List.mem_dedup.2 h1)
  refine ⟨?_, ?_, ?_⟩
  · rw [incident_counts, length_value_counts]
    rcases hdd with h | h <;> rw [h] <;> rfl
  · have h := sum_countsOf (t.map Row.incident_occurred)
    simpa [incident_counts, countsOf] using h
  · unfold incidentBarNotes
    simp only [div_mul_eq_mul_div]

/-- Witness for C6 on a concrete two-row table with one incident. -/
theorem incident_bars_spec_witness :
    (incident_counts [normalRowW, incidentRowW]).length = 2 ∧
    ((incident_counts [normalRowW, incidentRowW]).map Prod.snd).sum =
      ([normalRowW, incidentRowW] : List Row).length ∧
    incidentBarNotes [normalRowW, incidentRowW] =
      (incident_counts [normalRowW, incidentRowW]).map (fun (p : Int × Nat) =>
        toString p.2 ++ "\n(" ++
          format1f ((p.2 : ℚ) * 100 / (([normalRowW, incidentRowW] : List Row).length : ℚ)) ++
          "%)") :=
  incident_bars_spec [normalRowW, incidentRowW]
    (by intro r hr
        rcases List.mem_cons.1 hr with h | h
        · rw [h, normalRowW]
          exact Or.inl rfl
        · rw [List.mem_singleton.1 h, incidentRowW]
          exact Or.inr rfl)
    (by rw [List.map_cons, List.map_cons, List.map_nil, normalRowW]
        exact List.mem_cons_self _ _)
    (by rw [List.map_cons, List.map_cons, List.map_nil, incidentRowW]
        exact List.mem_cons_of_mem _ (List.mem_cons_self _ _))

/-!
## Claim C2: the pie's label/color assignment

`value_counts` orders categories by count descending, while lines 45-48
pass positional label and color lists, so the wedge labelled "Normal"
(drawn first, green) carries whichever category is more frequent — not
necessarily `panic_mode = 0`.
-/

/-- Evaluating `value_counts` on a list with exactly the distinct values `x` then `y`
(in dedup order): both pairs, count-descending. -/
theorem value_counts_pair {α : Type} [DecidableEq α] {xs : List α} {x y : α}
    (hd : xs.dedup = [x, y]) :
    value_counts xs =
      if xs.count y ≤ xs.count x then [(x, xs.count x), (y, xs.count y)]
      else [(y, xs.count y), (x, xs.count x)] := by
  unfold value_counts
  rw [hd]
  simp only [List.map_cons, List.map_nil, List.insertionSort, List.orderedInsert]
  split_ifs with hcond1 hcond2 <;> simp_all [countGE]

/-- C2 counterexample: on a three-row table with two panic rows and one
normal row, the wedge labelled "Normal" does not carry the
`panic_mode = 0` count: the label list is positional over the
count-descending order, so "Normal" is attached to the majority category
(here the panic one). -/
theorem panic_pie_normal_wedge_mislabelled :
    ¬ (∀ w ∈ panicPieWedges (addPanicMode [panicRowW, panicRowW, normalRowW]),
        w.label = "Normal" →
          w.value =
            (addPanicMode [panicRowW, panicRowW, normalRowW]).panic_mode.count 0) := by
  decide

/-- C2 amended: For every table in which both panic categories occur,
the labels and colors are assigned positionally over the count-descending
`value_counts` order: the first wedge is labelled "Normal" and drawn green
(`#2ecc71`), the second is labelled "Panic Mode" and drawn red
(`#e74c3c`), and the wedge values are the larger and the smaller of the
two category counts, in that order — so "Normal"/green shows the
`panic_mode = 0` proportion only when that category is at least as
frequent. -/
theorem panic_pie_positional (t : List Row)
    (h0 : (0 : Nat) ∈ (addPanicMode t).panic_mode)
    (h1 : (1 : Nat) ∈ (addPanicMode t).panic_mode) :
    (panicPieWedges (addPanicMode t)).map Wedge.label = ["Normal", "Panic Mode"] ∧
    (panicPieWedges (addPanicMode t)).map Wedge.color = ["#2ecc71", "#e74c3c"] ∧
    (panicPieWedges (addPanicMode t)).map Wedge.value =
      [max ((addPanicMode t).panic_mode.count 0) ((addPanicMode t).panic_mode.count 1),
       min ((addPanicMode t).panic_mode.count 0)
         ((addPanicMode t).panic_mode.count 1)] := by
  have hsubm : ∀ v ∈ (addPanicMode t).panic_mode, v = 0 ∨ v = 1 := by
    intro v hv
    obtain ⟨r, hr, hrv⟩ := List.mem_map.1 hv
    rw [← hrv]
    exact panicMode_zero_or_one r
  have hdd := nodup_two_values (x := (0 : Nat)) (y := 1) (by decide)
    ((addPanicMode t).panic_mode).nodup_dedup
    (fun v hv => hsubm v (List.mem_dedup.1 hv))
    (List.mem_dedup.2 h0) (List.mem_dedup.2 h1)
  unfold panicPieWedges panic_counts
  rcases hdd with h | h
  · rw [value_counts_pair h]
    by_cases hc : (addPanicMode t).panic_mode.count 1 ≤ (addPanicMode t).panic_mode.count 0
    · rw [if_pos hc]
      refine ⟨rfl, rfl, ?_⟩
      simp [mkWedges, max_eq_left hc, min_eq_right hc]
    · rw [if_neg hc]
      have hle := le_of_not_le hc
      refine ⟨rfl, rfl, ?_⟩
      simp [mkWedges, max_eq_right hle, min_eq_left hle]
  · rw [value_counts_pair h]
    by_cases hc : (addPanicMode t).panic_mode.count 0 ≤ (addPanicMode t).panic_mode.count 1
    · rw [if_pos hc]
      refine ⟨rfl, rfl, ?_⟩
      simp [mkWedges, max_eq_right hc, min_eq_left hc]
    · rw [if_neg hc]
      have hle := le_of_not_le hc
      refine ⟨rfl, rfl, ?_⟩
      simp [mkWedges, max_eq_left hle, min_eq_right hle]

/-- Witness for the amended C2 on a concrete two-row table. -/
theorem panic_pie_positional_witness :
    (panicPieWedges (addPanicMode [panicRowW, normalRowW])).map Wedge.label =
      ["Normal", "Panic Mode"] ∧
    (panicPieWedges (addPanicMode [panicRowW, normalRowW])).map Wedge.color =
      ["#2ecc71", "#e74c3c"] ∧
    (panicPieWedges (addPanicMode [panicRowW, normalRowW])).map Wedge.value =
      [max ((addPanicMode [panicRowW, normalRowW]).panic_mode.count 0)
         ((addPanicMode [panicRowW, normalRowW]).panic_mode.count 1),
       min ((addPanicMode [panicRowW, normalRowW]).panic_mode.count 0)
         ((addPanicMode [panicRowW, normalRowW]).panic_mode.count 1)] :=
  panic_pie_positional [panicRowW, normalRowW] (by decide) (by decide)

end SlideThree
